/-
Verification of the service-registry and lifecycle-coordination layer of the
agents-orchestration-system repository, as a shallow embedding in Lean 4.

The embedded code:
  * src/agents/mcp_service.py   — per-agent worker adapter (lifecycle state
    machine, execute gating, action endpoint);
  * src/web/routers/manager.py  — manager-side service registry (register /
    heartbeat / unregister / purge) and the command forwarder
    (execute / action / status / logs proxying);
  * src/web/routers/agents.py   — dashboard Agent State Store and the
    WebSocket ConnectionManager broadcast logic.

Machine reals (Python floats used only as timestamps and counters here) are
modelled as `Int`/`Nat`; the HTTP network is modelled as an oracle function
from the resolved URL to the worker's answer; JSON parsing of a worker
response body is not modelled (both `resp.text` and `resp.json()` are the
same response body, carried as one `String` field).
-/

import Mathlib

namespace McpService

/-- Worker lifecycle status, from `app.state._lifecycle["status"]` in
`src/agents/mcp_service.py` (values "running", "paused", "stopping"). -/
inductive LifecycleStatus
  | running
  | paused
  | stopping
  deriving DecidableEq, Repr

/-- Worker-side lifecycle state: `app.state._lifecycle` (status and
current_task) together with `app.state._shutdown_requested`. -/
structure LifecycleState where
  status : LifecycleStatus
  currentTask : Option String
  shutdownRequested : Bool
  deriving DecidableEq, Repr

/-- Initial state set in `create_app`:
`{"status": "running", "current_task": None}`, `_shutdown_requested = False`. -/
def initialState : LifecycleState :=
  { status := .running, currentTask := none, shutdownRequested := false }

/-- Result of the `POST /action` endpoint (response body or HTTP error). -/
inductive ActionResult
  | ok (message : String)
  | httpError (statusCode : Nat) (detail : String)
  deriving DecidableEq, Repr

/-- The `POST /action` handler of `src/agents/mcp_service.py` (lines
189-262), as a transition on the lifecycle state.  `action` is
`body.get("action")`; `none` stands for a missing or empty (falsy) value.
The drain threads started by stop/restart run off the request path and do
not touch `status`/`shutdown_requested`; the handler's own mutations are
modelled exactly. -/
def actionStep (action : Option String) (s : LifecycleState) :
    LifecycleState × ActionResult :=
  match action with
  | none => (s, .httpError 400 "Missing action")
  | some a =>
    if a = "pause" then
      ({ s with status := .paused }, .ok "paused")
    else if a = "resume" then
      ({ s with status := .running }, .ok "resumed")
    else if a = "stop" then
      ({ s with shutdownRequested := true, status := .stopping }, .ok "stopping")
    else if a = "restart" then
      ({ s with shutdownRequested := true, status := .stopping }, .ok "restarting")
    else
      (s, .httpError 400 "Unsupported action")

/-- Outcome of the `POST /execute` endpoint: either the request is rejected
before the agent's `execute` function runs, or the agent is invoked. -/
inductive ExecuteOutcome
  | rejected (statusCode : Nat) (detail : String)
  | invoked
  deriving DecidableEq, Repr

/-- The lifecycle gate of the `POST /execute` handler in
`src/agents/mcp_service.py` (lines 159-183): reject with 409 while paused,
reject with 409 while shutdown was requested or status is stopping,
otherwise invoke the agent (which sets and later clears `current_task`;
the rejecting paths leave the state untouched). -/
def executeGate (s : LifecycleState) : LifecycleState × ExecuteOutcome :=
  if s.status = .paused then
    (s, .rejected 409 "Agent is paused")
  else if s.shutdownRequested || s.status = .stopping then
    (s, .rejected 409 "Agent is stopping")
  else
    (s, .invoked)

/-- Apply a sequence of `/action` requests, keeping only the states. -/
def runActions (acts : List (Option String)) (s : LifecycleState) :
    LifecycleState :=
  acts.foldl (fun st a => (actionStep a st).1) s

end McpService

namespace ManagerRegistry

/-- One registry value: `{serviceUrl, metadata, registered_at}` as stored in
`REGISTERED_SERVICES` of `src/web/routers/manager.py`.  `registeredAt` is
the `time.time()` stamp (the entry's last-seen time); metadata is an open
map modelled as an association list. -/
structure RegisteredService where
  serviceUrl : String
  metadata : List (String × String)
  registeredAt : Int
  deriving DecidableEq, Repr

/-- The in-memory registry `REGISTERED_SERVICES : Dict[str, ...]`, modelled
as an association list; dict semantics require the keys to be distinct
(`keysNodup`). -/
abbrev Registry := List (String × RegisteredService)

/-- Python-dict key uniqueness for the association-list model. -/
def keysNodup (reg : Registry) : Prop :=
  (reg.map Prod.fst).Nodup

instance (reg : Registry) : Decidable (keysNodup reg) := by
  unfold keysNodup; infer_instance

/-- `REGISTERED_SERVICES.get(id)`. -/
def lookup (reg : Registry) (id : String) : Option RegisteredService :=
  (reg.find? (fun e => e.1 = id)).map Prod.snd

/-- Dict assignment `REGISTERED_SERVICES[id] = v`: overwrite in place when
the key exists, else append. -/
def setEntry (reg : Registry) (id : String) (v : RegisteredService) :
    Registry :=
  if (lookup reg id).isSome then
    reg.map (fun e => if e.1 = id then (id, v) else e)
  else
    reg ++ [(id, v)]

/-- `_purge_stale(ttl_seconds)` of `src/web/routers/manager.py` (lines
82-91): collect the ids whose `now - registered_at > ttl`, then pop each
collected id. -/
def purgeStale (now : Int) (ttl : Int) (reg : Registry) : Registry :=
  let stale :=
    (reg.filter (fun e => now - e.2.registeredAt > ttl)).map Prod.fst
  stale.foldl (fun r rid => r.filter (fun e => e.1 ≠ rid)) reg

/-- The `POST /heartbeat` handler of `src/web/routers/manager.py` (lines
301-328), after the missing-id 400 guard: refresh `registered_at`,
overwrite `serviceUrl` when truthy (non-empty), overwrite `metadata` when
truthy (non-empty), or implicitly create the entry when absent.  The body's
`serviceUrl` is modelled as a `String` where `""` covers both a missing and
an empty (falsy) value, matching `service_url or ""` on the creation
path. -/
def heartbeat (now : Int) (reg : Registry) (id : String)
    (serviceUrl : String) (metadata : List (String × String)) : Registry :=
  match lookup reg id with
  | some entry =>
    let entry := { entry with registeredAt := now }
    let entry :=
      if serviceUrl ≠ "" then { entry with serviceUrl := serviceUrl }
      else entry
    let entry :=
      if metadata ≠ [] then { entry with metadata := metadata } else entry
    setEntry reg id entry
  | none =>
    setEntry reg id
      { serviceUrl := serviceUrl, metadata := metadata, registeredAt := now }

end ManagerRegistry

namespace Forwarder

open ManagerRegistry

/-- One entry of `config/agents.config.json`'s `agents` array, restricted
to the fields the forwarder reads: `id` and the optional static `port`. -/
structure AgentCfg where
  id : String
  port : Option Nat
  deriving DecidableEq, Repr

/-- The `agents` list of the manager's configuration. -/
abbrev Config := List AgentCfg

/-- `_agent_service_url(index)` of `src/web/routers/manager.py` with the
default host and base port: `http://127.0.0.1:{8100 + index}`. -/
def agentServiceUrl (index : Nat) : String :=
  "http://127.0.0.1:" ++ toString (8100 + index)

/-- Python's `s.rstrip("/")`: drop every trailing slash. -/
def rstripSlash (s : String) : String :=
  ⟨(s.data.reverse.dropWhile (fun c => c = '/')).reverse⟩

/-- `next((i for i, a in enumerate(agents) if a.get("id") == agent_id),
None)`: index of the first config entry with the given id. -/
def findAgentIdx (agents : Config) (agent_id : String) : Option Nat :=
  agents.findIdx? (fun a => a.id = agent_id)

/-- The `cfg_port`-or-deterministic fallback used by the action, logs and
status handlers: `http://127.0.0.1:{cfg_port}` when the config entry
declares a truthy port, else `_agent_service_url(idx)`. -/
def cfgFallbackBase (agent_cfg : AgentCfg) (idx : Nat) : String :=
  match agent_cfg.port with
  | some p =>
    if p ≠ 0 then "http://127.0.0.1:" ++ toString p else agentServiceUrl idx
  | none => agentServiceUrl idx

/-- `agents[idx]`, the config entry the handlers read after `findAgentIdx`
returned `idx` (always in range on those paths). -/
def cfgAt (agents : Config) (idx : Nat) : AgentCfg :=
  agents.getD idx ⟨"", none⟩

/-- Destination URL of `execute_on_agent` (manager.py lines 109-122) once
the config index is known: use the registered serviceUrl when truthy, else
fall back directly to `_agent_service_url(idx)` — the static config port is
not consulted on this path. -/
def executeUrl (agents : Config) (reg : Registry) (idx : Nat) : String :=
  let agent_cfg := cfgAt agents idx
  let service_url :=
    match lookup reg agent_cfg.id with
    | some r => r.serviceUrl
    | none => ""
  if service_url ≠ "" then rstripSlash service_url ++ "/execute"
  else agentServiceUrl idx ++ "/execute"

/-- Destination URL of `action_on_agent` / `logs_on_agent` /
`status_on_agent` (manager.py lines 148-168 and the analogous blocks) once
the config index is known, parametrised by the endpoint suffix: registered
serviceUrl when truthy; when the entry is absent, or present with a falsy
serviceUrl, fall back to the config port and then the deterministic
scheme. -/
def shortOpUrl (agents : Config) (reg : Registry) (idx : Nat)
    (suffix : String) : String :=
  let agent_cfg := cfgAt agents idx
  let url : Option String :=
    match lookup reg agent_cfg.id with
    | some r =>
      if r.serviceUrl ≠ "" then some (rstripSlash r.serviceUrl ++ suffix)
      else none
    | none => some (cfgFallbackBase agent_cfg idx ++ suffix)
  match url with
  | some u => u
  | none => cfgFallbackBase agent_cfg idx ++ suffix

/-- What the worker (or the network) answers to a forwarded HTTP request:
either a transport-level failure (`httpx.RequestError`, carrying its
message) or a response with a status code and a body.  JSON parsing is not
modelled: `resp.text` and `resp.json()` are both the body string. -/
inductive WorkerAnswer
  | transportError (errMsg : String)
  | response (statusCode : Nat) (body : String)
  deriving DecidableEq, Repr

/-- Manager-facing result of a forwarded operation: an `HTTPException`
with status and detail, or the worker's JSON body returned unmodified. -/
inductive ForwardResult
  | httpError (statusCode : Nat) (detail : String)
  | jsonBody (body : String)
  deriving DecidableEq, Repr

/-- The shared translation step of all four forwarding handlers
(manager.py lines 124-135, 170-181, 216-227, 257-268): transport error →
503 with the error in the detail; status ≥ 400 → same status with the body
as detail; otherwise the JSON body. -/
def translate (ans : WorkerAnswer) : ForwardResult :=
  match ans with
  | .transportError e =>
    .httpError 503 ("Error contacting agent service: " ++ e)
  | .response code body =>
    if code ≥ 400 then .httpError code body else .jsonBody body

/-- `POST /api/agent-services/{agent_id}/execute` (manager.py lines
101-135).  `net` is the network oracle: the worker's answer at each URL. -/
def execute_on_agent (agents : Config) (reg : Registry)
    (net : String → WorkerAnswer) (agent_id : String) : ForwardResult :=
  match findAgentIdx agents agent_id with
  | none => .httpError 404 "Agent not found in config"
  | some idx => translate (net (executeUrl agents reg idx))

/-- `POST /api/agent-services/{agent_id}/action` (manager.py lines
138-181). -/
def action_on_agent (agents : Config) (reg : Registry)
    (net : String → WorkerAnswer) (agent_id : String) : ForwardResult :=
  match findAgentIdx agents agent_id with
  | none => .httpError 404 "Agent not found in config"
  | some idx => translate (net (shortOpUrl agents reg idx "/action"))

/-- `GET /api/agent-services/{agent_id}/logs` (manager.py lines
184-227). -/
def logs_on_agent (agents : Config) (reg : Registry)
    (net : String → WorkerAnswer) (agent_id : String) : ForwardResult :=
  match findAgentIdx agents agent_id with
  | none => .httpError 404 "Agent not found in config"
  | some idx => translate (net (shortOpUrl agents reg idx "/logs"))

/-- `GET /api/agent-services/{agent_id}/status` (manager.py lines
230-268). -/
def status_on_agent (agents : Config) (reg : Registry)
    (net : String → WorkerAnswer) (agent_id : String) : ForwardResult :=
  match findAgentIdx agents agent_id with
  | none => .httpError 404 "Agent not found in config"
  | some idx => translate (net (shortOpUrl agents reg idx "/status"))

/-- The error-translation contract of one forwarding handler: 404 when the
id is absent from the config, 503 with the transport error in the detail,
status-and-body propagation for remote errors, and the JSON body passed
through otherwise. -/
def ForwardSpec (agents : Config) (net : String → WorkerAnswer)
    (agent_id : String) (url : Nat → String) (result : ForwardResult) :
    Prop :=
  (findAgentIdx agents agent_id = none →
    result = .httpError 404 "Agent not found in config") ∧
  ∀ idx, findAgentIdx agents agent_id = some idx →
    (∀ e, net (url idx) = .transportError e →
      result = .httpError 503 ("Error contacting agent service: " ++ e)) ∧
    (∀ code body, net (url idx) = .response code body →
      (400 ≤ code → result = .httpError code body) ∧
      (code < 400 → result = .jsonBody body))

end Forwarder

namespace DashStore

/-- `AgentState` of `src/web/routers/agents.py` (lines 29-40).  The status
is a plain string in the source ("idle", "running", "paused", "stopped",
"error"); counters are ints; `uptime_seconds` (a float in the source) only
ever holds whole values here and is carried as an `Int`; `metrics` is an
open map modelled as an association list of strings. -/
structure AgentState where
  id : String
  name : String
  status : String
  current_task : Option String
  tasks_pending : Nat
  tasks_completed : Nat
  tasks_failed : Nat
  uptime_seconds : Int
  last_activity : Option String
  metrics : List (String × String)
  deriving DecidableEq, Repr

/-- The `AgentStore._agents : Dict[str, AgentState]` table, as an
association list with dict-key uniqueness assumed where needed. -/
abbrev Store := List (String × AgentState)

/-- `self._agents.get(agent_id)`. -/
def getAgent (store : Store) (agent_id : String) : Option AgentState :=
  (store.find? (fun e => e.1 = agent_id)).map Prod.snd

/-- Dict assignment `self._agents[agent_id] = a`. -/
def setAgent (store : Store) (agent_id : String) (a : AgentState) : Store :=
  if (getAgent store agent_id).isSome then
    store.map (fun e => if e.1 = agent_id then (agent_id, a) else e)
  else
    store ++ [(agent_id, a)]

/-- The keyword arguments accepted by `AgentStore.update_agent` as used by
the action handler and broadcast helpers: each field is `some v` when the
kwarg is passed and `none` when omitted.  (`setattr` only fires for
attributes the model has, which these all are.) -/
structure AgentPatch where
  status : Option String := none
  current_task : Option (Option String) := none
  tasks_pending : Option Nat := none
  tasks_completed : Option Nat := none
  tasks_failed : Option Nat := none
  uptime_seconds : Option Int := none
  deriving Repr

/-- The `setattr` loop of `update_agent`: overwrite exactly the provided
fields. -/
def applyPatch (p : AgentPatch) (a : AgentState) : AgentState :=
  { a with
    status := p.status.getD a.status
    current_task := p.current_task.getD a.current_task
    tasks_pending := p.tasks_pending.getD a.tasks_pending
    tasks_completed := p.tasks_completed.getD a.tasks_completed
    tasks_failed := p.tasks_failed.getD a.tasks_failed
    uptime_seconds := p.uptime_seconds.getD a.uptime_seconds }

/-- `AgentStore.update_agent` (agents.py lines 95-105): `none` is the
`ValueError` on an unknown id; otherwise apply the kwargs and stamp
`last_activity` with the current time (`now`, carried as the ISO string the
source produces). -/
def update_agent (now : String) (store : Store) (agent_id : String)
    (p : AgentPatch) : Option (Store × AgentState) :=
  match getAgent store agent_id with
  | none => none
  | some agent =>
    let agent := { applyPatch p agent with last_activity := some now }
    some (setAgent store agent_id agent, agent)

/-- Dict assignment on a metrics map: `metrics["priority"] = value`. -/
def setMetric (m : List (String × String)) (key value : String) :
    List (String × String) :=
  if (m.find? (fun e => e.1 = key)).isSome then
    m.map (fun e => if e.1 = key then (key, value) else e)
  else
    m ++ [(key, value)]

/-- Python's `str.lower()` as applied to the action string (ASCII action
names), mapped over the character list. -/
def lowerString (s : String) : String :=
  ⟨s.data.map Char.toLower⟩

/-- Outcome of `POST /api/agents/{agent_id}/action`: 404, 400, a 500-level
propagated `ValueError` (unreachable in the sequential model), or success
with the message and the updated record. -/
inductive ActionOutcome
  | notFound (detail : String)
  | badRequest (detail : String)
  | serverError
  | ok (message : String) (agent : AgentState)
  deriving DecidableEq, Repr

/-- `execute_agent_action` of `src/web/routers/agents.py` (lines 220-297):
validate the agent exists, dispatch on the lower-cased action string with
the source's preconditions and patches, and return the new store together
with the HTTP outcome.  `params` is `action.parameters` (string-valued
here).  The `prioritize` branch mutates `updated_agent.metrics` after the
update — the stored record and the returned one alias in the source, so
both carry the new priority. -/
def execute_agent_action (now : String) (store : Store) (agent_id : String)
    (action : String) (params : List (String × String)) :
    Store × ActionOutcome :=
  match getAgent store agent_id with
  | none => (store, .notFound ("Agent " ++ agent_id ++ " not found"))
  | some agent =>
    let action_type := lowerString action
    if action_type = "pause" then
      if agent.status ≠ "running" then
        (store, .badRequest "Can only pause running agents")
      else
        match update_agent now store agent_id { status := some "paused" } with
        | some (st, a) => (st, .ok ("Agent " ++ agent_id ++ " paused") a)
        | none => (store, .serverError)
    else if action_type = "resume" then
      if agent.status ≠ "paused" then
        (store, .badRequest "Can only resume paused agents")
      else
        match update_agent now store agent_id { status := some "running" } with
        | some (st, a) => (st, .ok ("Agent " ++ agent_id ++ " resumed") a)
        | none => (store, .serverError)
    else if action_type = "stop" then
      match update_agent now store agent_id
          { status := some "stopped", current_task := some none } with
      | some (st, a) => (st, .ok ("Agent " ++ agent_id ++ " stopped") a)
      | none => (store, .serverError)
    else if action_type = "restart" then
      match update_agent now store agent_id
          { status := some "running", current_task := some none,
            tasks_pending := some 0, uptime_seconds := some 0 } with
      | some (st, a) => (st, .ok ("Agent " ++ agent_id ++ " restarted") a)
      | none => (store, .serverError)
    else if action_type = "prioritize" then
      match (params.find? (fun e => e.1 = "priority")).map Prod.snd with
      | none => (store, .badRequest "Priority parameter required")
      | some priority =>
        match update_agent now store agent_id {} with
        | some (st, a) =>
          let a := { a with metrics := setMetric a.metrics "priority" priority }
          (setAgent st agent_id a,
           .ok ("Agent " ++ agent_id ++ " priority set to " ++ priority) a)
        | none => (store, .serverError)
    else
      (store, .badRequest ("Unknown action: " ++ action_type))

/-- The agent record carried by a successful action outcome, if any. -/
def outcomeAgent : ActionOutcome → Option AgentState
  | .ok _ a => some a
  | _ => none

end DashStore

namespace ConnMgr

/-- The `ConnectionManager` of `src/web/routers/agents.py` (lines
122-178), restricted to what `broadcast` touches: the list of active
WebSocket connections.  WebSocket handles are abstracted as naturals. -/
structure ConnectionManager where
  active_connections : List Nat
  deriving DecidableEq, Repr

/-- `ConnectionManager.disconnect`: remove the connection if present
(Python `list.remove`, first occurrence). -/
def disconnect (cm : ConnectionManager) (ws : Nat) : ConnectionManager :=
  if ws ∈ cm.active_connections then
    { cm with active_connections := cm.active_connections.erase ws }
  else cm

/-- `_send_to_client`: try the send; on an exception, disconnect the
client.  `sendOk` is the oracle saying which connections' `send_json`
succeeds; the Bool result records whether the message was delivered. -/
def sendToClient (sendOk : Nat → Bool) (cm : ConnectionManager) (ws : Nat) :
    ConnectionManager × Bool :=
  if sendOk ws then (cm, true) else (disconnect cm ws, false)

/-- What a run of `broadcast` did: the final connection set, which
connections a send was attempted to, and which of them were delivered. -/
structure BroadcastTrace where
  finalCm : ConnectionManager
  attempted : List Nat
  delivered : List Nat
  deriving DecidableEq, Repr

/-- The per-connection loop of `broadcast`: each spawned
`_send_to_client` task is guarded by its own try/except, so one failing
send never stops the others; the tasks are modelled as running to
completion in order over the snapshot `conns`. -/
def broadcastAux (sendOk : Nat → Bool) (conns : List Nat)
    (cm : ConnectionManager) (attempted delivered : List Nat) :
    BroadcastTrace :=
  match conns with
  | [] => ⟨cm, attempted, delivered⟩
  | ws :: rest =>
    let r := sendToClient sendOk cm ws
    broadcastAux sendOk rest r.1 (attempted ++ [ws])
      (if r.2 then delivered ++ [ws] else delivered)

/-- `ConnectionManager.broadcast` (agents.py lines 158-168): snapshot the
connection list under the lock, then attempt a send to every snapshotted
connection. -/
def broadcast (sendOk : Nat → Bool) (cm : ConnectionManager) :
    BroadcastTrace :=
  broadcastAux sendOk cm.active_connections cm [] []

end ConnMgr

namespace McpService

/-- `true` iff an execute outcome is a rejection with HTTP status 409. -/
def isRejected409 : ExecuteOutcome → Bool
  | .rejected c _ => c = 409
  | .invoked => false

theorem actionStep_preserves_shutdown (a : Option String)
    (s : LifecycleState) (h : s.shutdownRequested = true) :
    (actionStep a s).1.shutdownRequested = true := by
  cases a with
  | none => simpa [actionStep] using h
  | some x =>
    simp only [actionStep]
    split_ifs <;> simp [h]

theorem runActions_preserves_shutdown (acts : List (Option String)) :
    ∀ s : LifecycleState, s.shutdownRequested = true →
      (runActions acts s).shutdownRequested = true := by
  induction acts with
  | nil => intro s h; simpa [runActions] using h
  | cons a rest ih =>
    intro s h
    exact ih _ (actionStep_preserves_shutdown a s h)

theorem executeGate_rejects_when_shutdown (s : LifecycleState)
    (h : s.shutdownRequested = true) :
    isRejected409 (executeGate s).2 = true := by
  unfold executeGate
  split_ifs <;> simp_all [isRejected409]

end McpService

/-- C7 counterexample: the claim says that every execute request arriving
while a shutdown has been requested is rejected with a 409 saying the
agent is stopping, but in the reachable state obtained by `stop` followed
by `pause` (the worker's pause has no guard) the shutdown flag is set and
yet the execute rejection says "Agent is paused", not "Agent is
stopping". -/
theorem C7_counterexample_paused_over_stopping :
    (McpService.runActions [some "stop", some "pause"]
        McpService.initialState).shutdownRequested = true ∧
    (McpService.executeGate
        (McpService.runActions [some "stop", some "pause"]
          McpService.initialState)).2 =
      .rejected 409 "Agent is paused" ∧
    (McpService.executeGate
        (McpService.runActions [some "stop", some "pause"]
          McpService.initialState)).2 ≠
      .rejected 409 "Agent is stopping" := by
  decide

/-- C7 (amended): a worker-side execute request arriving while the
lifecycle status is paused is rejected with 409 "Agent is paused" (this
check takes precedence even when a shutdown has been requested); one
arriving while the status is not paused but a shutdown has been requested
or the status is stopping is rejected with 409 "Agent is stopping"; in
both cases the lifecycle state is unmodified and the agent's execute
function is not invoked. -/
theorem C7_amended_execute_rejections (s : McpService.LifecycleState) :
    (s.status = .paused →
      McpService.executeGate s =
        (s, .rejected 409 "Agent is paused")) ∧
    ((s.shutdownRequested = true ∨ s.status = .stopping) →
      s.status ≠ .paused →
      McpService.executeGate s =
        (s, .rejected 409 "Agent is stopping")) := by
  constructor
  · intro hp
    simp [McpService.executeGate, hp]
  · intro hs hnp
    rcases hs with h | h <;>
      simp [McpService.executeGate, hnp, h]

/-- Witness for the amended C7 at two concrete states: a paused worker
without a shutdown request, and a running worker with one. -/
theorem C7_amended_execute_rejections_witness :
    McpService.executeGate ⟨.paused, none, false⟩ =
      (⟨.paused, none, false⟩, .rejected 409 "Agent is paused") ∧
    McpService.executeGate ⟨.running, none, true⟩ =
      (⟨.running, none, true⟩, .rejected 409 "Agent is stopping") :=
  ⟨(C7_amended_execute_rejections ⟨.paused, none, false⟩).1 rfl,
   (C7_amended_execute_rejections ⟨.running, none, true⟩).2 (Or.inl rfl)
     (by decide)⟩

/-- C8 counterexample: from the reachable state produced by `stop`
(status `stopping`), a `resume` action moves the status back to `running`
— the worker's action handler has no transition guards, refuting the claim
that the status never moves from stopping back to running or paused. -/
theorem C8_counterexample_resume_from_stopping :
    (McpService.runActions [some "stop"]
        McpService.initialState).status = .stopping ∧
    (McpService.actionStep (some "resume")
        (McpService.runActions [some "stop"]
          McpService.initialState)).1.status = .running := by
  decide

/-- C8 (amended): the worker's action endpoint applies every lifecycle
action unconditionally, from any state: `pause` always sets the status to
paused, `resume` always sets it to running (including from `stopping`),
and `stop`/`restart` always set it to stopping and latch the
shutdown-requested flag; no transition is ever refused for being invalid
from the current state. -/
theorem C8_amended_unguarded_transitions (s : McpService.LifecycleState) :
    McpService.actionStep (some "pause") s =
      ({ s with status := .paused }, .ok "paused") ∧
    McpService.actionStep (some "resume") s =
      ({ s with status := .running }, .ok "resumed") ∧
    McpService.actionStep (some "stop") s =
      ({ s with status := .stopping, shutdownRequested := true },
        .ok "stopping") ∧
    McpService.actionStep (some "restart") s =
      ({ s with status := .stopping, shutdownRequested := true },
        .ok "restarting") := by
  refine ⟨rfl, ?_, ?_, ?_⟩ <;> simp [McpService.actionStep]

/-- C10 (confirmed): once a stop or restart action has been applied, the
shutdown-requested flag stays set across every further sequence of
actions — nothing clears it — and the execute gate rejects every
subsequent request with a 409 (even when a later resume has set the status
back to running). -/
theorem C10_shutdown_latched (s₀ : McpService.LifecycleState)
    (a : Option String) (h : a = some "stop" ∨ a = some "restart")
    (acts : List (Option String)) :
    (McpService.runActions acts
        (McpService.actionStep a s₀).1).shutdownRequested = true ∧
    McpService.isRejected409
      (McpService.executeGate
        (McpService.runActions acts
          (McpService.actionStep a s₀).1)).2 = true := by
  have hset : (McpService.actionStep a s₀).1.shutdownRequested = true := by
    rcases h with h | h <;> subst h <;> simp [McpService.actionStep]
  have hrun := McpService.runActions_preserves_shutdown acts _ hset
  exact ⟨hrun, McpService.executeGate_rejects_when_shutdown _ hrun⟩

/-- Witness for C10: stop, then resume (which does set the status back to
running), still leaves the flag latched and execute rejected. -/
theorem C10_shutdown_latched_witness :
    (McpService.runActions [some "resume"]
        (McpService.actionStep (some "stop")
          McpService.initialState).1).shutdownRequested = true ∧
    McpService.isRejected409
      (McpService.executeGate
        (McpService.runActions [some "resume"]
          (McpService.actionStep (some "stop")
            McpService.initialState).1)).2 = true :=
  C10_shutdown_latched McpService.initialState (some "stop")
    (Or.inl rfl) [some "resume"]

theorem Forwarder.forwardSpec_of (agents : Forwarder.Config)
    (net : String → Forwarder.WorkerAnswer)
    (agent_id : String) (url : Nat → String)
    (handler : Forwarder.ForwardResult)
    (hh : handler =
      match Forwarder.findAgentIdx agents agent_id with
      | none => .httpError 404 "Agent not found in config"
      | some idx => Forwarder.translate (net (url idx))) :
    Forwarder.ForwardSpec agents net agent_id url handler := by
  subst hh
  constructor
  · intro h
    rw [h]
  · intro idx hidx
    have hred :
        (match Forwarder.findAgentIdx agents agent_id with
          | none =>
            Forwarder.ForwardResult.httpError 404 "Agent not found in config"
          | some j => Forwarder.translate (net (url j))) =
          Forwarder.translate (net (url idx)) := by
      rw [hidx]
    rw [hred]
    constructor
    · intro e he
      rw [he]
      simp [Forwarder.translate]
    · intro code body hcb
      rw [hcb]
      constructor
      · intro hge
        simp [Forwarder.translate, hge]
      · intro hlt
        simp [Forwarder.translate, Nat.not_le.mpr hlt]

/-- C1 (confirmed): every forwarded operation (execute, action, status,
logs) answers 404 when the agent-id is absent from the manager's
configuration; 503 with the underlying transport error in the detail when
the HTTP request to the resolved worker URL fails at the transport level;
mirrors the worker's status code with the worker's response body as the
detail when the worker answers with status ≥ 400; and returns the worker's
JSON body unmodified when the worker answers with status < 400. -/
theorem C1_forward_error_translation (agents : Forwarder.Config)
    (reg : ManagerRegistry.Registry) (net : String → Forwarder.WorkerAnswer)
    (agent_id : String) :
    Forwarder.ForwardSpec agents net agent_id
      (fun idx => Forwarder.executeUrl agents reg idx)
      (Forwarder.execute_on_agent agents reg net agent_id) ∧
    Forwarder.ForwardSpec agents net agent_id
      (fun idx => Forwarder.shortOpUrl agents reg idx "/action")
      (Forwarder.action_on_agent agents reg net agent_id) ∧
    Forwarder.ForwardSpec agents net agent_id
      (fun idx => Forwarder.shortOpUrl agents reg idx "/logs")
      (Forwarder.logs_on_agent agents reg net agent_id) ∧
    Forwarder.ForwardSpec agents net agent_id
      (fun idx => Forwarder.shortOpUrl agents reg idx "/status")
      (Forwarder.status_on_agent agents reg net agent_id) :=
  ⟨Forwarder.forwardSpec_of _ _ _ _ _ rfl,
   Forwarder.forwardSpec_of _ _ _ _ _ rfl,
   Forwarder.forwardSpec_of _ _ _ _ _ rfl,
   Forwarder.forwardSpec_of _ _ _ _ _ rfl⟩

/-- Witness for C1 at a concrete configuration and network: a worker that
answers 200 has its body passed through on execute, one that answers 500
has status and body mirrored on action, a transport failure becomes a 503
on logs, and an unknown id yields 404 on status. -/
theorem C1_forward_error_translation_witness :
    Forwarder.execute_on_agent [⟨"planner", none⟩] []
      (fun _ => .response 200 "okbody") "planner" = .jsonBody "okbody" ∧
    Forwarder.action_on_agent [⟨"planner", none⟩] []
      (fun _ => .response 500 "boom") "planner" = .httpError 500 "boom" ∧
    Forwarder.logs_on_agent [⟨"planner", none⟩] []
      (fun _ => .transportError "refused") "planner" =
      .httpError 503 "Error contacting agent service: refused" ∧
    Forwarder.status_on_agent [⟨"planner", none⟩]
      [] (fun _ => .response 200 "okbody") "nosuch" =
      .httpError 404 "Agent not found in config" := by
  refine ⟨?_, ?_, ?_, ?_⟩
  · exact (((C1_forward_error_translation [⟨"planner", none⟩] []
      (fun _ => .response 200 "okbody") "planner").1.2 0
      (by decide)).2 200 "okbody" rfl).2 (by decide)
  · exact (((C1_forward_error_translation [⟨"planner", none⟩] []
      (fun _ => .response 500 "boom") "planner").2.1.2 0
      (by decide)).2 500 "boom" rfl).1 (by decide)
  · exact ((C1_forward_error_translation [⟨"planner", none⟩] []
      (fun _ => .transportError "refused") "planner").2.2.1.2 0
      (by decide)).1 "refused" rfl
  · exact (C1_forward_error_translation [⟨"planner", none⟩] []
      (fun _ => .response 200 "okbody") "nosuch").2.2.2.1 (by decide)

/-- C2 counterexample: with the configuration entry `planner` declaring
static port 9999 at index 0 and an empty registry, the action URL falls
back to the configured port, but the execute URL goes straight to the
deterministic `base_port + index` scheme (port 8100), refuting the claim
that the config-port fallback holds for execute as it does for action,
status, and logs. -/
theorem C2_counterexample_execute_ignores_config_port :
    ManagerRegistry.lookup [] "planner" = none ∧
    Forwarder.shortOpUrl [⟨"planner", some 9999⟩] [] 0 "/action" =
      "http://127.0.0.1:9999/action" ∧
    Forwarder.executeUrl [⟨"planner", some 9999⟩] [] 0 =
      "http://127.0.0.1:8100/execute" ∧
    Forwarder.executeUrl [⟨"planner", some 9999⟩] [] 0 ≠
      "http://127.0.0.1:9999/execute" := by
  refine ⟨rfl, rfl, rfl, by decide⟩

/-- C2 (amended): when no live registry entry supplies a (non-empty)
serviceUrl for the agent, the destination URL for action, status, and logs
falls back first to the static config port declared in the agent's
configuration entry and only then to the deterministic `base_port + index`
scheme; the execute operation, however, skips the config-port step and
falls back directly to `base_port + index`. -/
theorem C2_amended_fallback_order (agents : Forwarder.Config)
    (reg : ManagerRegistry.Registry) (idx : Nat)
    (h : ∀ r, ManagerRegistry.lookup reg
        (Forwarder.cfgAt agents idx).id = some r → r.serviceUrl = "") :
    (∀ suffix, Forwarder.shortOpUrl agents reg idx suffix =
      Forwarder.cfgFallbackBase (Forwarder.cfgAt agents idx) idx ++ suffix) ∧
    Forwarder.executeUrl agents reg idx =
      Forwarder.agentServiceUrl idx ++ "/execute" := by
  constructor
  · intro suffix
    unfold Forwarder.shortOpUrl
    cases hl : ManagerRegistry.lookup reg (Forwarder.cfgAt agents idx).id with
    | none => simp [hl]
    | some r => simp [hl, h r hl]
  · unfold Forwarder.executeUrl
    cases hl : ManagerRegistry.lookup reg (Forwarder.cfgAt agents idx).id with
    | none => simp [hl]
    | some r => simp [hl, h r hl]

namespace ManagerRegistry

theorem lookup_cons (a : String × RegisteredService) (rest : Registry)
    (id : String) :
    lookup (a :: rest) id = if a.1 = id then some a.2 else lookup rest id := by
  by_cases h : a.1 = id <;> simp [lookup, List.find?_cons, h]

theorem lookup_append (r1 r2 : Registry) (id : String) :
    lookup (r1 ++ r2) id = (lookup r1 id).or (lookup r2 id) := by
  simp only [lookup, List.find?_append]
  cases r1.find? (fun e => decide (e.1 = id)) <;> simp

theorem lookup_overwrite_self (reg : Registry) (id : String)
    (v : RegisteredService) :
    lookup (reg.map (fun e => if e.1 = id then (id, v) else e)) id =
      if (lookup reg id).isSome then some v else none := by
  induction reg with
  | nil => simp [lookup]
  | cons a rest ih =>
    by_cases ha : a.1 = id
    · simp [lookup_cons, ha]
    · simp [lookup_cons, ha, ih]

theorem lookup_overwrite_other (reg : Registry) (id j : String)
    (hj : j ≠ id) (v : RegisteredService) :
    lookup (reg.map (fun e => if e.1 = id then (id, v) else e)) j =
      lookup reg j := by
  induction reg with
  | nil => simp
  | cons a rest ih =>
    by_cases ha : a.1 = id
    · have h1 : ¬(id = j) := fun h => hj h.symm
      have h2 : ¬(a.1 = j) := by rw [ha]; exact h1
      simp [lookup_cons, ha, h1, h2, ih]
    · simp [lookup_cons, ha, ih]

theorem lookup_setEntry_self (reg : Registry) (id : String)
    (v : RegisteredService) :
    lookup (setEntry reg id v) id = some v := by
  unfold setEntry
  split_ifs with hp
  · rw [lookup_overwrite_self]
    simp [hp]
  · rw [lookup_append]
    have hn : lookup reg id = none := by
      cases h : lookup reg id with
      | none => rfl
      | some e => rw [h] at hp; simp at hp
    simp [hn, lookup_cons]

theorem lookup_setEntry_other (reg : Registry) (id j : String)
    (hj : j ≠ id) (v : RegisteredService) :
    lookup (setEntry reg id v) j = lookup reg j := by
  unfold setEntry
  split_ifs with hp
  · exact lookup_overwrite_other reg id j hj v
  · rw [lookup_append]
    have h1 : ¬(id = j) := fun h => hj h.symm
    have hsingle : lookup [(id, v)] j = none := by
      simp [lookup_cons, h1, lookup]
    simp [hsingle]

theorem foldl_removeAll (ids : List String) (reg : Registry) :
    ids.foldl (fun r rid => r.filter (fun e => e.1 ≠ rid)) reg =
      reg.filter (fun e => e.1 ∉ ids) := by
  induction ids generalizing reg with
  | nil => simp
  | cons a ids ih =>
    simp only [List.foldl_cons, ih]
    rw [List.filter_filter]
    apply List.filter_congr
    intro e _
    by_cases h1 : e.1 = a <;> by_cases h2 : e.1 ∈ ids <;> simp [h1, h2]

end ManagerRegistry

/-- C3 (confirmed): a heartbeat for an id with an existing registry entry
refreshes its lastSeen to now, overwrites serviceUrl exactly when a
non-empty one is provided and metadata exactly when non-empty metadata is
provided (the respective other field staying as it was), and leaves every
other id's entry unchanged; a heartbeat for an absent id implicitly
creates the entry (with the provided serviceUrl, metadata, and lastSeen =
now), so that resolving that id afterwards succeeds. -/
theorem C3_heartbeat_upsert (now : Int) (reg : ManagerRegistry.Registry)
    (id : String) (su : String) (md : List (String × String)) :
    (∀ e, ManagerRegistry.lookup reg id = some e →
      ManagerRegistry.lookup (ManagerRegistry.heartbeat now reg id su md)
          id =
        some { serviceUrl := if su ≠ "" then su else e.serviceUrl,
               metadata := if md ≠ [] then md else e.metadata,
               registeredAt := now } ∧
      ∀ j, j ≠ id →
        ManagerRegistry.lookup (ManagerRegistry.heartbeat now reg id su md)
            j =
          ManagerRegistry.lookup reg j) ∧
    (ManagerRegistry.lookup reg id = none →
      ManagerRegistry.lookup (ManagerRegistry.heartbeat now reg id su md)
          id =
        some { serviceUrl := su, metadata := md, registeredAt := now } ∧
      ∀ j, j ≠ id →
        ManagerRegistry.lookup (ManagerRegistry.heartbeat now reg id su md)
            j =
          ManagerRegistry.lookup reg j) := by
  constructor
  · intro e he
    unfold ManagerRegistry.heartbeat
    rw [he]
    constructor
    · rw [ManagerRegistry.lookup_setEntry_self]
      split_ifs <;> rfl
    · intro j hj
      exact ManagerRegistry.lookup_setEntry_other reg id j hj _
  · intro hn
    unfold ManagerRegistry.heartbeat
    rw [hn]
    exact ⟨ManagerRegistry.lookup_setEntry_self reg id _,
      fun j hj => ManagerRegistry.lookup_setEntry_other reg id j hj _⟩

/-- Witness for C3: a heartbeat on an empty registry implicitly registers
the id, and a second heartbeat with empty serviceUrl and metadata only
refreshes lastSeen. -/
theorem C3_heartbeat_upsert_witness :
    ManagerRegistry.lookup
        (ManagerRegistry.heartbeat 10 [] "planner" "http://a" [])
        "planner" =
      some { serviceUrl := "http://a", metadata := [], registeredAt := 10 } ∧
    ManagerRegistry.lookup
        (ManagerRegistry.heartbeat 20
          [("planner",
            { serviceUrl := "http://a", metadata := [], registeredAt := 10 })]
          "planner" "" [])
        "planner" =
      some { serviceUrl := "http://a", metadata := [], registeredAt := 20 } := by
  constructor
  · exact ((C3_heartbeat_upsert 10 [] "planner" "http://a" []).2 rfl).1
  · have h := ((C3_heartbeat_upsert 20
      [("planner",
        { serviceUrl := "http://a", metadata := [], registeredAt := 10 })]
      "planner" "" []).1
      { serviceUrl := "http://a", metadata := [], registeredAt := 10 } rfl).1
    rw [h]
    rfl

/-- C4 (confirmed): for every ttl ≥ 0 and registry contents (with the
dict's distinct keys), `_purge_stale` removes exactly the entries whose
`now - lastSeen > ttl`, and every entry with `now - lastSeen ≤ ttl`
remains, unchanged and in order. -/
theorem C4_purge_stale_exact (now ttl : Int)
    (reg : ManagerRegistry.Registry) (httl : 0 ≤ ttl)
    (hk : ManagerRegistry.keysNodup reg) :
    ManagerRegistry.purgeStale now ttl reg =
      reg.filter (fun e => now - e.2.registeredAt ≤ ttl) := by
  unfold ManagerRegistry.purgeStale
  rw [ManagerRegistry.foldl_removeAll]
  apply List.filter_congr
  intro e he
  have key : e.1 ∈
      (reg.filter (fun x => now - x.2.registeredAt > ttl)).map Prod.fst ↔
      ttl < now - e.2.registeredAt := by
    constructor
    · intro hmem
      rcases List.mem_map.mp hmem with ⟨e', he', heq⟩
      have he'r : e' ∈ reg := List.mem_of_mem_filter he'
      have hee : e' = e := List.inj_on_of_nodup_map hk he'r he heq
      have hpred := List.of_mem_filter he'
      rw [hee] at hpred
      simpa using hpred
    · intro hlt
      exact List.mem_map.mpr
        ⟨e, List.mem_filter.mpr ⟨he, by simpa using hlt⟩, rfl⟩
  by_cases hc : ttl < now - e.2.registeredAt
  · simp [key, hc, not_le.mpr hc]
  · simp [key, hc, le_of_not_lt hc]

/-- Witness for C4: with now = 120 and ttl = 30, the entry last seen at 50
is purged and the one last seen at 100 survives unchanged. -/
theorem C4_purge_stale_exact_witness :
    ManagerRegistry.purgeStale 120 30
        [("a", { serviceUrl := "u", metadata := [], registeredAt := 100 }),
         ("b", { serviceUrl := "v", metadata := [], registeredAt := 50 })] =
      [("a", { serviceUrl := "u", metadata := [], registeredAt := 100 })] := by
  have h := C4_purge_stale_exact 120 30
    [("a", { serviceUrl := "u", metadata := [], registeredAt := 100 }),
     ("b", { serviceUrl := "v", metadata := [], registeredAt := 50 })]
    (by norm_num) (by decide)
  rw [h]
  rfl

/-- C5 counterexample: restarting an agent whose tasksCompleted counter is
5 leaves the counter at 5 — the dashboard restart action resets
tasks_pending and uptime_seconds, not tasks_completed, refuting the claim
that tasksCompleted is reset to 0. -/
theorem C5_counterexample_restart_keeps_completed :
    (DashStore.outcomeAgent
      (DashStore.execute_agent_action "T"
        [("a1", { id := "a1", name := "A", status := "stopped",
                  current_task := some "t", tasks_pending := 2,
                  tasks_completed := 5, tasks_failed := 1,
                  uptime_seconds := 7, last_activity := none,
                  metrics := [] })]
        "a1" "restart" []).2).map DashStore.AgentState.tasks_completed =
      some 5 ∧
    (DashStore.outcomeAgent
      (DashStore.execute_agent_action "T"
        [("a1", { id := "a1", name := "A", status := "stopped",
                  current_task := some "t", tasks_pending := 2,
                  tasks_completed := 5, tasks_failed := 1,
                  uptime_seconds := 7, last_activity := none,
                  metrics := [] })]
        "a1" "restart" []).2).map DashStore.AgentState.tasks_completed ≠
      some 0 := by
  constructor
  · rfl
  · decide

/-- C5 (amended): for every agent present in the dashboard store,
regardless of its prior status, restart succeeds and leaves the record
with status running, currentTask cleared to none, tasksPending reset to 0
and uptime reset to 0, while tasksCompleted is left unchanged. -/
theorem C5_amended_restart (now : String) (store : DashStore.Store)
    (agent_id : String) (agent : DashStore.AgentState)
    (params : List (String × String))
    (h : DashStore.getAgent store agent_id = some agent) :
    (DashStore.execute_agent_action now store agent_id "restart" params).2 =
      .ok ("Agent " ++ agent_id ++ " restarted")
        { agent with
          status := "running"
          current_task := none
          tasks_pending := 0
          uptime_seconds := 0
          last_activity := some now } := by
  unfold DashStore.execute_agent_action DashStore.update_agent
  rw [h]
  rfl

/-- Witness for the amended C5 on a concrete stopped agent with completed
tasks. -/
theorem C5_amended_restart_witness :
    (DashStore.execute_agent_action "T"
      [("a1", { id := "a1", name := "A", status := "stopped",
                current_task := some "t", tasks_pending := 2,
                tasks_completed := 5, tasks_failed := 1,
                uptime_seconds := 7, last_activity := none,
                metrics := [] })]
      "a1" "restart" []).2 =
      .ok ("Agent " ++ "a1" ++ " restarted")
        { id := "a1", name := "A", status := "running",
          current_task := none, tasks_pending := 0, tasks_completed := 5,
          tasks_failed := 1, uptime_seconds := 0,
          last_activity := some "T", metrics := [] } :=
  C5_amended_restart "T"
    [("a1", { id := "a1", name := "A", status := "stopped",
              current_task := some "t", tasks_pending := 2,
              tasks_completed := 5, tasks_failed := 1,
              uptime_seconds := 7, last_activity := none,
              metrics := [] })]
    "a1"
    { id := "a1", name := "A", status := "stopped",
      current_task := some "t", tasks_pending := 2, tasks_completed := 5,
      tasks_failed := 1, uptime_seconds := 7, last_activity := none,
      metrics := [] }
    [] rfl

/-- C6 counterexample: the dashboard stop action on an agent whose status
is already "stopped" succeeds (the handler has no precondition on stop),
refuting the claim that it fails with an invalid-transition error. -/
theorem C6_counterexample_stop_already_stopped :
    (DashStore.execute_agent_action "T"
      [("a1", { id := "a1", name := "A", status := "stopped",
                current_task := none, tasks_pending := 0,
                tasks_completed := 0, tasks_failed := 0,
                uptime_seconds := 0, last_activity := none,
                metrics := [] })]
      "a1" "stop" []).2 =
      .ok ("Agent " ++ "a1" ++ " stopped")
        { id := "a1", name := "A", status := "stopped",
          current_task := none, tasks_pending := 0, tasks_completed := 0,
          tasks_failed := 0, uptime_seconds := 0,
          last_activity := some "T", metrics := [] } := by
  rfl

/-- C6 (amended): against the dashboard store, pause fails with the
invalid-transition 400 unless the agent's status is running; resume fails
with the invalid-transition 400 unless the status is paused; stop, by
contrast, has no precondition and succeeds from every status, including an
already-stopped agent; an action string outside pause, resume, stop,
restart, prioritize fails with the unknown-action 400; an unknown agent-id
fails with NotFound; and every such failure leaves the store unchanged. -/
theorem C6_amended_action_errors (now : String) (store : DashStore.Store)
    (agent_id : String) (params : List (String × String)) :
    (DashStore.getAgent store agent_id = none →
      ∀ act, DashStore.execute_agent_action now store agent_id act params =
        (store, .notFound ("Agent " ++ agent_id ++ " not found"))) ∧
    (∀ agent, DashStore.getAgent store agent_id = some agent →
      (agent.status ≠ "running" →
        DashStore.execute_agent_action now store agent_id "pause" params =
          (store, .badRequest "Can only pause running agents")) ∧
      (agent.status ≠ "paused" →
        DashStore.execute_agent_action now store agent_id "resume" params =
          (store, .badRequest "Can only resume paused agents")) ∧
      ((DashStore.execute_agent_action now store agent_id "stop"
          params).2 =
        .ok ("Agent " ++ agent_id ++ " stopped")
          { agent with
            status := "stopped"
            current_task := none
            last_activity := some now }) ∧
      (∀ act, DashStore.lowerString act ∉
          ["pause", "resume", "stop", "restart", "prioritize"] →
        DashStore.execute_agent_action now store agent_id act params =
          (store,
           .badRequest ("Unknown action: " ++ DashStore.lowerString act)))) := by
  constructor
  · intro hn act
    unfold DashStore.execute_agent_action
    rw [hn]
  · intro agent hsome
    refine ⟨?_, ?_, ?_, ?_⟩
    · intro hst
      unfold DashStore.execute_agent_action
      rw [hsome]
      simp [hst, (by decide : DashStore.lowerString "pause" = "pause")]
    · intro hst
      unfold DashStore.execute_agent_action
      rw [hsome]
      simp [hst, (by decide : DashStore.lowerString "resume" = "resume")]
    · unfold DashStore.execute_agent_action DashStore.update_agent
      rw [hsome]
      rfl
    · intro act hact
      simp only [List.mem_cons, List.not_mem_nil, or_false, not_or] at hact
      obtain ⟨h1, h2, h3, h4, h5⟩ := hact
      unfold DashStore.execute_agent_action
      rw [hsome]
      simp [h1, h2, h3, h4, h5]

/-- Witness for the amended C6: unknown id, pause on a stopped agent,
stop on the same already-stopped agent, and a junk action, each behaving
as stated. -/
theorem C6_amended_action_errors_witness :
    DashStore.execute_agent_action "T" [] "ghost" "pause" [] =
      ([], .notFound ("Agent " ++ "ghost" ++ " not found")) ∧
    DashStore.execute_agent_action "T"
      [("a1", { id := "a1", name := "A", status := "stopped",
                current_task := none, tasks_pending := 0,
                tasks_completed := 0, tasks_failed := 0,
                uptime_seconds := 0, last_activity := none,
                metrics := [] })]
      "a1" "pause" [] =
      ([("a1", { id := "a1", name := "A", status := "stopped",
                 current_task := none, tasks_pending := 0,
                 tasks_completed := 0, tasks_failed := 0,
                 uptime_seconds := 0, last_activity := none,
                 metrics := [] })],
       .badRequest "Can only pause running agents") ∧
    DashStore.execute_agent_action "T"
      [("a1", { id := "a1", name := "A", status := "stopped",
                current_task := none, tasks_pending := 0,
                tasks_completed := 0, tasks_failed := 0,
                uptime_seconds := 0, last_activity := none,
                metrics := [] })]
      "a1" "frobnicate" [] =
      ([("a1", { id := "a1", name := "A", status := "stopped",
                 current_task := none, tasks_pending := 0,
                 tasks_completed := 0, tasks_failed := 0,
                 uptime_seconds := 0, last_activity := none,
                 metrics := [] })],
       .badRequest ("Unknown action: " ++ DashStore.lowerString "frobnicate")) := by
  refine ⟨?_, ?_, ?_⟩
  · exact (C6_amended_action_errors "T" [] "ghost" []).1 rfl "pause"
  · exact (((C6_amended_action_errors "T"
      [("a1", { id := "a1", name := "A", status := "stopped",
                current_task := none, tasks_pending := 0,
                tasks_completed := 0, tasks_failed := 0,
                uptime_seconds := 0, last_activity := none,
                metrics := [] })]
      "a1" []).2
      { id := "a1", name := "A", status := "stopped",
        current_task := none, tasks_pending := 0, tasks_completed := 0,
        tasks_failed := 0, uptime_seconds := 0, last_activity := none,
        metrics := [] } rfl).1 (by decide))
  · exact (((C6_amended_action_errors "T"
      [("a1", { id := "a1", name := "A", status := "stopped",
                current_task := none, tasks_pending := 0,
                tasks_completed := 0, tasks_failed := 0,
                uptime_seconds := 0, last_activity := none,
                metrics := [] })]
      "a1" []).2
      { id := "a1", name := "A", status := "stopped",
        current_task := none, tasks_pending := 0, tasks_completed := 0,
        tasks_failed := 0, uptime_seconds := 0, last_activity := none,
        metrics := [] } rfl).2.2.2 "frobnicate" (by decide))

namespace ConnMgr

theorem disconnect_active (cm : ConnectionManager) (ws : Nat) :
    (disconnect cm ws).active_connections =
      cm.active_connections.erase ws := by
  unfold disconnect
  split_ifs with h
  · rfl
  · rw [List.erase_of_not_mem h]

theorem broadcastAux_attempted (sendOk : Nat → Bool) (conns : List Nat) :
    ∀ (cm : ConnectionManager) (att del : List Nat),
      (broadcastAux sendOk conns cm att del).attempted = att ++ conns := by
  induction conns with
  | nil => intro cm att del; simp [broadcastAux]
  | cons w ws ih =>
    intro cm att del
    simp only [broadcastAux]
    rw [ih]
    simp

theorem broadcastAux_delivered (sendOk : Nat → Bool) (conns : List Nat) :
    ∀ (cm : ConnectionManager) (att del : List Nat),
      (broadcastAux sendOk conns cm att del).delivered =
        del ++ conns.filter sendOk := by
  induction conns with
  | nil => intro cm att del; simp [broadcastAux]
  | cons w ws ih =>
    intro cm att del
    simp only [broadcastAux, sendToClient]
    by_cases hw : sendOk w
    · simp [hw, ih, List.filter_cons]
    · simp [hw, ih, List.filter_cons]

theorem broadcastAux_final (sendOk : Nat → Bool) (conns : List Nat) :
    ∀ (cm : ConnectionManager) (att del : List Nat),
      (broadcastAux sendOk conns cm att del).finalCm.active_connections =
        conns.foldl
          (fun a ws => if sendOk ws then a else a.erase ws)
          cm.active_connections := by
  induction conns with
  | nil => intro cm att del; simp [broadcastAux]
  | cons w ws ih =>
    intro cm att del
    simp only [broadcastAux, sendToClient, List.foldl_cons]
    by_cases hw : sendOk w
    · simp [hw, ih]
    · simp [hw, ih, disconnect_active]

theorem foldl_erase_cons (sendOk : Nat → Bool) (conns : List Nat) :
    ∀ (x : Nat) (a : List Nat), x ∉ conns →
      conns.foldl
          (fun acc ws => if sendOk ws then acc else acc.erase ws) (x :: a) =
        x :: conns.foldl
          (fun acc ws => if sendOk ws then acc else acc.erase ws) a := by
  induction conns with
  | nil => intro x a _; rfl
  | cons w ws ih =>
    intro x a hx
    have hxw : x ≠ w := fun h => hx (h ▸ List.mem_cons_self w ws)
    have hxws : x ∉ ws := fun h => hx (List.mem_cons_of_mem w h)
    simp only [List.foldl_cons]
    by_cases hw : sendOk w
    · simp only [if_pos hw]
      exact ih x a hxws
    · simp only [if_neg hw]
      rw [List.erase_cons_tail]
      · exact ih x (a.erase w) hxws
      · simpa using hxw

theorem foldl_erase_self (sendOk : Nat → Bool) (l : List Nat)
    (h : l.Nodup) :
    l.foldl (fun acc ws => if sendOk ws then acc else acc.erase ws) l =
      l.filter sendOk := by
  induction l with
  | nil => rfl
  | cons x xs ih =>
    have hx : x ∉ xs := (List.nodup_cons.mp h).1
    have hxs : xs.Nodup := (List.nodup_cons.mp h).2
    simp only [List.foldl_cons]
    by_cases hsx : sendOk x
    · rw [if_pos hsx, foldl_erase_cons sendOk xs x xs hx, ih hxs]
      simp [List.filter_cons, hsx]
    · rw [if_neg hsx, List.erase_cons_head, ih hxs]
      simp [List.filter_cons, hsx]

end ConnMgr

/-- C9 (confirmed): a broadcast over the current set of N distinct
connected WebSocket subscribers attempts delivery to every one of them;
every subscriber whose send succeeds receives the message even when other
subscribers' sends raise (the failures are caught per task, so one failure
never prevents the other N - 1 deliveries); and exactly the subscribers
whose send failed are removed from the active connection set. -/
theorem C9_broadcast_isolation (sendOk : Nat → Bool)
    (cm : ConnMgr.ConnectionManager)
    (h : cm.active_connections.Nodup) :
    (ConnMgr.broadcast sendOk cm).attempted = cm.active_connections ∧
    (ConnMgr.broadcast sendOk cm).delivered =
      cm.active_connections.filter sendOk ∧
    (ConnMgr.broadcast sendOk cm).finalCm.active_connections =
      cm.active_connections.filter sendOk ∧
    ∀ ws ∈ cm.active_connections, sendOk ws = false →
      ws ∉ (ConnMgr.broadcast sendOk cm).finalCm.active_connections := by
  have h1 := ConnMgr.broadcastAux_attempted sendOk cm.active_connections
    cm [] []
  have h2 := ConnMgr.broadcastAux_delivered sendOk cm.active_connections
    cm [] []
  have h3 := ConnMgr.broadcastAux_final sendOk cm.active_connections
    cm [] []
  rw [ConnMgr.foldl_erase_self sendOk cm.active_connections h] at h3
  refine ⟨by simpa using h1, by simpa using h2, by simpa using h3, ?_⟩
  intro ws hws hfail
  have : ws ∉ cm.active_connections.filter sendOk := by
    simp [List.mem_filter, hfail]
  intro hmem
  exact this (by
    have hfin : (ConnMgr.broadcast sendOk cm).finalCm.active_connections =
        cm.active_connections.filter sendOk := by simpa using h3
    rwa [hfin] at hmem)

/-- Witness for C9 over three distinct subscribers of which the middle
one's send raises: all three are attempted, the other two are delivered,
and the failing one is dropped from the active set. -/
theorem C9_broadcast_isolation_witness :
    (ConnMgr.broadcast (fun ws => ws != 2) ⟨[1, 2, 3]⟩).attempted =
      [1, 2, 3] ∧
    (ConnMgr.broadcast (fun ws => ws != 2) ⟨[1, 2, 3]⟩).delivered =
      [1, 3] ∧
    (ConnMgr.broadcast
        (fun ws => ws != 2) ⟨[1, 2, 3]⟩).finalCm.active_connections =
      [1, 3] := by
  have h := C9_broadcast_isolation (fun ws => ws != 2) ⟨[1, 2, 3]⟩
    (by decide)
  exact ⟨h.1, h.2.1.trans (by decide), h.2.2.1.trans (by decide)⟩

/-- Witness for the amended C2 at the counterexample's concrete input. -/
theorem C2_amended_fallback_order_witness :
    (∀ suffix,
      Forwarder.shortOpUrl [⟨"planner", some 9999⟩] [] 0 suffix =
        Forwarder.cfgFallbackBase
          (Forwarder.cfgAt [⟨"planner", some 9999⟩] 0) 0 ++ suffix) ∧
    Forwarder.executeUrl [⟨"planner", some 9999⟩] [] 0 =
      Forwarder.agentServiceUrl 0 ++ "/execute" :=
  C2_amended_fallback_order [⟨"planner", some 9999⟩] [] 0
    (fun r hr => by simp [ManagerRegistry.lookup] at hr)
